import Mathlib

/-
Verification of the TLV tag/length codec family and the Data Object grammar
framework of pySim/utils.py, via a shallow embedding into Lean.

Conventions of the embedding:
- a Python bytes object is a List Nat (each element 0..255 at call sites);
- Python exceptions are modelled by Except PyErr; an out-of-range index
  access do[i] is PyErr.indexError, a raise ValueError(...) is
  PyErr.valueError, a TypeError is PyErr.typeError;
- Python slices clamp, hence List.take / List.drop;
- object mutation is modelled by state passing: a method that mutates self
  returns the updated object alongside its Python return value;
- an unbounded while loop is modelled with explicit fuel; the fuel chosen at
  the call site is large enough that exhaustion (PyErr.nonTermination or
  Option none) occurs only when the Python loop genuinely does not finish.
-/

/-- Python exceptions raised by the code under study.  nonTermination is an
embedding artifact marking a while loop that did not finish within its fuel. -/
inductive PyErr where
  | typeError (msg : String)
  | valueError (msg : String)
  | indexError
  | nonTermination
deriving DecidableEq, Repr

/-- Python int.bit_length, fuel-based so that it is kernel-reducible.
The first argument is fuel; fuel n suffices for input n since halving a
positive number reaches 0 within n steps. -/
def bitLenAux : Nat → Nat → Nat
  | 0, _ => 0
  | fuel + 1, n => if n = 0 then 0 else bitLenAux fuel (n / 2) + 1

/-- Python n.bit_length(). -/
def bit_length (n : Nat) : Nat := bitLenAux n n

/-- Python n.to_bytes(k, big): the k-byte big-endian encoding of n.  The
source only calls it with n < 2 ^ (8 * k), where no overflow occurs. -/
def to_bytes_be : Nat → Nat → List Nat
  | 0, _ => []
  | k + 1, n => to_bytes_be k (n / 256) ++ [n % 256]

/-- Big-endian accumulation loop, as written in bertlv_parse_len:
for each byte, length = length << 8; length |= byte. -/
def from_bytes_be (l : List Nat) : Nat :=
  l.foldl (fun acc b => (acc <<< 8) ||| b) 0

/-! ## COMPREHENSION-TLV tag codec (ETSI TS 101 220 section 7.1.1) -/

/-- comprehensiontlv_parse_tag_raw from pySim/utils.py.  The branch order is
exactly the source order: the illegal-value check on 0x00/0x80/0xff comes
first and raises; the later elif binary[0] == 0xff branch (which would
return (None, binary)) is therefore unreachable, but it is kept here to
mirror the source faithfully. -/
def comprehensiontlv_parse_tag_raw : List Nat → Except PyErr (Option Nat × List Nat)
  | [] => Except.error PyErr.indexError
  | b :: rest =>
    if b = 0x00 ∨ b = 0x80 ∨ b = 0xff then
      Except.error (PyErr.valueError "Found illegal value")
    else if b = 0x7f then
      match rest with
      | b1 :: b2 :: rest2 => Except.ok (some (((b <<< 16) ||| (b1 <<< 8)) ||| b2), rest2)
      | _ => Except.error PyErr.indexError
    else if b = 0xff then
      Except.ok (none, b :: rest)
    else
      Except.ok (some b, rest)

/-- A COMPREHENSION-TLV tag record, the dict with keys comprehension and tag
produced by comprehensiontlv_parse_tag. -/
structure ComprTag where
  comprehension : Bool
  tag : Nat
deriving DecidableEq, Repr

/-- comprehensiontlv_parse_tag from pySim/utils.py. -/
def comprehensiontlv_parse_tag : List Nat → Except PyErr (ComprTag × List Nat)
  | [] => Except.error PyErr.indexError
  | b :: rest =>
    if b = 0x00 ∨ b = 0x80 ∨ b = 0xff then
      Except.error (PyErr.valueError "Found illegal value")
    else if b = 0x7f then
      match rest with
      | b1 :: b2 :: rest2 =>
        Except.ok (⟨b1 &&& 0x80 != 0, ((b1 &&& 0x7f) <<< 8) ||| b2⟩, rest2)
      | _ => Except.error PyErr.indexError
    else
      Except.ok (⟨b &&& 0x80 != 0, b &&& 0x7f⟩, rest)

/-! ## BER-TLV tag codec (ITU-T X.690 8.1.2) -/

/-- A BER-TLV tag record: the dict with keys class, constructed, tag.  The
field cls stands for the source key class, which is a reserved word here. -/
structure BerTag where
  cls : Nat
  constructed : Bool
  tag : Nat
deriving DecidableEq, Repr

/-- The multi-byte accumulation loop of bertlv_parse_tag: each byte
contributes its low 7 bits, until a byte with bit 7 clear.  Running off the
end of the input is binary[i] out of range, an IndexError. -/
def bertlv_parse_tag_loop : Nat → List Nat → Except PyErr (Nat × List Nat)
  | _, [] => Except.error PyErr.indexError
  | acc, b :: rest =>
    let acc2 := (acc <<< 7) ||| (b &&& 0x7f)
    if b &&& 0x80 = 0 then Except.ok (acc2, rest)
    else bertlv_parse_tag_loop acc2 rest

/-- bertlv_parse_tag from pySim/utils.py. -/
def bertlv_parse_tag : List Nat → Except PyErr (BerTag × List Nat)
  | [] => Except.error PyErr.indexError
  | b :: rest =>
    let cls := b >>> 6
    let constructed : Bool := b &&& 0x20 != 0
    let tag := b &&& 0x1f
    if tag ≤ 30 then Except.ok (⟨cls, constructed, tag⟩, rest)
    else
      match bertlv_parse_tag_loop 0 rest with
      | Except.error e => Except.error e
      | Except.ok (t, r) => Except.ok (⟨cls, constructed, t⟩, r)

/-- get_top7_bits, the inner helper of bertlv_encode_tag, translated
verbatim.  The source computes remainder as inp & ~(inp << shift); for
nonnegative inp the Python bitwise-and with a complement clears from inp
exactly the bits shared with inp << shift, which over Nat is
inp - (inp &&& (inp <<< shift)). -/
def get_top7_bits (inp : Nat) : Nat × Nat :=
  let remain_bits := bit_length inp
  let bitcnt := if remain_bits ≥ 7 then 7 else remain_bits
  let outp := inp >>> (remain_bits - bitcnt)
  let remainder := inp - (inp &&& (inp <<< (remain_bits - bitcnt)))
  (outp, remainder)

/-- The while True loop of bertlv_encode_tag, with fuel.  Each iteration
appends one continuation byte; the loop exits when the remainder reaches 0.
none means the loop did not exit within the given fuel. -/
def bertlv_encode_tag_loop : Nat → Nat → List Nat → Option (List Nat)
  | 0, _, _ => none
  | fuel + 1, remain, tag_bytes =>
    let p := get_top7_bits remain
    let t := if p.2 ≠ 0 then p.1 ||| 0x80 else p.1
    let tag_bytes2 := tag_bytes ++ [t]
    if p.2 = 0 then some tag_bytes2 else bertlv_encode_tag_loop fuel p.2 tag_bytes2

/-- bertlv_encode_tag from pySim/utils.py, for a tag record (the
isinstance(int) convenience entry path of the source first converts the int
to a record and is not needed by the claims).  The loop remainder never
grows, and an iteration that fails to shrink it repeats the same state
forever, so fuel tag + 1 returns none exactly when the Python loop never
terminates. -/
def bertlv_encode_tag (t : BerTag) : Option (List Nat) :=
  if t.tag ≤ 30 then
    some [((t.tag &&& 0x1f) ||| (if t.constructed then 0x20 else 0)) ||| ((t.cls &&& 3) <<< 6)]
  else
    bertlv_encode_tag_loop (t.tag + 1) t.tag
      [(0x1f ||| (if t.constructed then 0x20 else 0)) ||| ((t.cls &&& 3) <<< 6)]

/-! ## BER-TLV length codec (ITU-T X.690 8.1.3, definite form only) -/

/-- bertlv_parse_len from pySim/utils.py.  Note the truncation branch:
when the buffer holds fewer than num_len_oct following bytes the source
returns the ordinary pair (0, b'') instead of raising. -/
def bertlv_parse_len : List Nat → Except PyErr (Nat × List Nat)
  | [] => Except.error PyErr.indexError
  | b :: rest =>
    if b < 0x80 then Except.ok (b, rest)
    else
      let num_len_oct := b &&& 0x7f
      if (b :: rest).length < num_len_oct + 1 then Except.ok (0, [])
      else Except.ok (from_bytes_be (rest.take num_len_oct), rest.drop num_len_oct)

/-- bertlv_encode_len from pySim/utils.py. -/
def bertlv_encode_len (length : Nat) : Except PyErr (List Nat) :=
  if length < 0x80 then Except.ok (to_bytes_be 1 length)
  else if length ≤ 0xff then Except.ok (0x81 :: to_bytes_be 1 length)
  else if length ≤ 0xffff then Except.ok (0x82 :: to_bytes_be 2 length)
  else if length ≤ 0xffffff then Except.ok (0x83 :: to_bytes_be 3 length)
  else if length ≤ 0xffffffff then Except.ok (0x84 :: to_bytes_be 4 length)
  else Except.error (PyErr.valueError "Length > 32bits not supported")

/-! ## Data Object grammar framework

A DataObject is abstract in the source: concrete leaves supply from_bytes,
the value codec that interprets the value bytes and stores the result in
the mutable field decoded.  We model the codec as a function field
returning the new decoded value (every subclass in the source implements
from_bytes as computing a value and assigning self.decoded), and model the
mutation of self by returning the updated object. -/

structure DataObject (V : Type) where
  name : String
  desc : Option String
  tag : Nat
  decoded : Option V
  from_bytes : List Nat → Except PyErr V

/-- DataObject.from_tlv from pySim/utils.py.  The source reads the length as
the single raw byte do[1] (no long form), slices val = do[2:2+length] with
Python clamping, runs the value codec (which assigns self.decoded), and
returns do[2+length:]. -/
def DataObject.from_tlv (self : DataObject V) (d : List Nat) :
    Except PyErr (DataObject V × List Nat) :=
  match d with
  | [] => Except.error PyErr.indexError
  | t :: rest =>
    if t ≠ self.tag then
      Except.error (PyErr.valueError "Can only decode own tag")
    else
      match rest with
      | [] => Except.error PyErr.indexError
      | length :: rest2 =>
        match self.from_bytes (rest2.take length) with
        | Except.error e => Except.error e
        | Except.ok v =>
          Except.ok (⟨self.name, self.desc, self.tag, some v, self.from_bytes⟩,
            rest2.drop length)

/-- DataObject.decode from pySim/utils.py: checks the tag, runs from_tlv and
returns to_dict() (here the pair of name and decoded) with the remainder. -/
def DataObject.decode (self : DataObject V) (binary : List Nat) :
    Except PyErr ((String × Option V) × List Nat × DataObject V) :=
  match binary with
  | [] => Except.error PyErr.indexError
  | t :: _ =>
    if t ≠ self.tag then
      Except.error (PyErr.valueError "Unknown Tag")
    else
      match self.from_tlv binary with
      | Except.error e => Except.error e
      | Except.ok (self2, remainder) => Except.ok ((self2.name, self2.decoded), remainder, self2)

/-- A DataObjectCollection.  The source also stores the dicts members_by_tag
and members_by_name built in the constructor; their entries alias the very
member objects of the list and the key sets never change afterwards (from_tlv
never reassigns tag or name), so the embedding derives both lookups from the
members list at each use site. -/
structure DataObjectCollection (V : Type) where
  name : String
  desc : Option String
  members : List (DataObject V)

/-- The constructor DataObjectCollection.__init__ (inherited unchanged by
DataObjectChoice).  It declares members=None and assigns
self.members = members or [], but then builds members_by_tag and
members_by_name by iterating the raw members argument, so omitting members
iterates None and raises TypeError. -/
def DataObjectCollection.init (name : String) (desc : Option String)
    (members : Option (List (DataObject V))) : Except PyErr (DataObjectCollection V) :=
  match members with
  | none => Except.error (PyErr.typeError "NoneType object is not iterable")
  | some ms => Except.ok ⟨name, desc, ms⟩

/-- Lookup in members_by_tag.  The dict comprehension lets a later member
with the same tag overwrite an earlier one, so the lookup finds the last
member carrying the tag. -/
def members_by_tag_find (members : List (DataObject V)) (tag : Nat) : Option (DataObject V) :=
  members.reverse.find? (fun m => m.tag == tag)

/-- Replace the first element of the list whose tag matches. -/
def replaceFirstByTag : List (DataObject V) → Nat → DataObject V → List (DataObject V)
  | [], _, _ => []
  | m :: ms, tag, o => if m.tag = tag then o :: ms else m :: replaceFirstByTag ms tag o

/-- Replace the last member carrying the tag, i.e. the object aliased by
members_by_tag, with its updated state. -/
def replaceLastByTag (members : List (DataObject V)) (tag : Nat) (o : DataObject V) :
    List (DataObject V) :=
  (replaceFirstByTag members.reverse tag o).reverse

/-- The while loop of DataObjectCollection.decode, with fuel.  Each
successful from_tlv consumes at least two bytes, so fuel length + 1 at entry
can never be exhausted; PyErr.nonTermination is an unreachable embedding
artifact. -/
def DataObjectCollection.decode_loop :
    Nat → DataObjectCollection V → List (String × Option V) → List Nat →
    Except PyErr (List (String × Option V) × List Nat × DataObjectCollection V)
  | 0, _, _, _ => Except.error PyErr.nonTermination
  | fuel + 1, self, res, remainder =>
    match remainder with
    | [] => Except.ok (res, [], self)
    | tag :: _ =>
      if tag = 0xff then Except.ok (res, remainder, self)
      else
        match members_by_tag_find self.members tag with
        | none => Except.error (PyErr.valueError "Unknown Tag")
        | some obj =>
          match obj.from_tlv remainder with
          | Except.error e => Except.error e
          | Except.ok (obj2, remainder2) =>
            DataObjectCollection.decode_loop fuel
              ⟨self.name, self.desc, replaceLastByTag self.members tag obj2⟩
              (res ++ [(obj2.name, obj2.decoded)]) remainder2

/-- DataObjectCollection.decode from pySim/utils.py: iterate until the input
is exhausted, stopping early (without error) on an 0xff tag byte. -/
def DataObjectCollection.decode (self : DataObjectCollection V) (binary : List Nat) :
    Except PyErr (List (String × Option V) × List Nat × DataObjectCollection V) :=
  DataObjectCollection.decode_loop (binary.length + 1) self [] binary

/-- The expression self.members_by_name(i[0]) of DataObjectCollection.encode:
members_by_name is a dict, and calling a dict raises TypeError regardless of
the argument (the source needed square brackets for a lookup). -/
def dict_call (_self : DataObjectCollection V) (_key : String) : Except PyErr (DataObject V) :=
  Except.error (PyErr.typeError "dict object is not callable")

/-- The for loop of DataObjectCollection.encode over the named values. -/
def DataObjectCollection.encode_loop (self : DataObjectCollection V) :
    List (String × V) → List Nat → Except PyErr (List Nat)
  | [], res => Except.ok res
  | i :: _, _ =>
    match dict_call self i.1 with
    | Except.error e => Except.error e
    | Except.ok _ =>
      -- unreachable: dict_call always raises; the source would next run
      -- res.append(obj.to_tlv()), itself a TypeError since bytearray.append
      -- takes an int, not bytes
      Except.error (PyErr.typeError "an integer is required")

/-- DataObjectCollection.encode from pySim/utils.py. -/
def DataObjectCollection.encode (self : DataObjectCollection V)
    (decoded : List (String × V)) : Except PyErr (List Nat) :=
  DataObjectCollection.encode_loop self decoded []

/-- DataObjectChoice.decode from pySim/utils.py.  DataObjectChoice subclasses
DataObjectCollection without adding fields, so the embedding reuses the
collection state; decode dispatches exactly one member, returning (None,
binary) untouched when the next tag byte is the 0xff sentinel. -/
def DataObjectChoice.decode (self : DataObjectCollection V) (binary : List Nat) :
    Except PyErr (Option (String × Option V) × List Nat × DataObjectCollection V) :=
  match binary with
  | [] => Except.error PyErr.indexError
  | tag :: _ =>
    if tag = 0xff then Except.ok (none, binary, self)
    else
      match members_by_tag_find self.members tag with
      | none => Except.error (PyErr.valueError "Unknown Tag")
      | some obj =>
        match obj.from_tlv binary with
        | Except.error e => Except.error e
        | Except.ok (obj2, remainder) =>
          Except.ok (some (obj2.name, obj2.decoded), remainder,
            ⟨self.name, self.desc, replaceLastByTag self.members tag obj2⟩)

/-- A concrete leaf used as a test fixture: tag 0x30, identity value codec
(decoded holds the raw value bytes). -/
def idLeaf : DataObject (List Nat) :=
  ⟨"leaf", none, 0x30, none, fun b => Except.ok b⟩

/-! ## Helper lemmas -/

/-- For the tag number 128 the buggy remainder computation of get_top7_bits
returns the input unchanged, so the encoder loop repeats the same state and
never exits, whatever the fuel. -/
theorem bertlv_encode_tag_loop_stuck :
    ∀ (fuel : Nat) (acc : List Nat), bertlv_encode_tag_loop fuel 128 acc = none := by
  intro fuel
  induction fuel with
  | zero => intro acc; rfl
  | succ m ih =>
    intro acc
    have h : get_top7_bits 128 = (64, 128) := by decide
    simp only [bertlv_encode_tag_loop, h]
    norm_num
    exact ih _

/-! ## Claims -/

set_option maxRecDepth 4000 in
/-- Claim C1: the claim states that for every tag record the encoder
terminates and bertlv_parse_tag inverts bertlv_encode_tag, chaining exactly
enough 7-bit groups.  The code refutes it: encoding tag number 255 yields
the bytes 1f ff 01, which parse back to tag number 16257 (the encoder
splits 7-bit groups from the top, so the final group gets the wrong
positional weight), and encoding tag number 128 never terminates (the
remainder computation of get_top7_bits returns its input unchanged). -/
theorem claim_c1_bertlv_tag_roundtrip_fails :
    bertlv_encode_tag ⟨0, false, 255⟩ = some [0x1f, 0xff, 0x01]
    ∧ bertlv_parse_tag [0x1f, 0xff, 0x01] = Except.ok (⟨0, false, 16257⟩, [])
    ∧ bertlv_encode_tag ⟨0, false, 128⟩ = none := by
  refine ⟨rfl, rfl, ?_⟩
  exact bertlv_encode_tag_loop_stuck 129 [0x1f]

/-- Claim C2: the claim states DataObjectCollection.encode concatenates the
TLV encodings of the named members.  The code instead raises TypeError on
every non-empty input: it calls the dict members_by_name instead of
subscripting it, before any lookup can happen. -/
theorem claim_c2_collection_encode_raises (nm : String) (v : Nat)
    (rest : List (String × Nat)) (c : DataObjectCollection Nat) :
    c.encode ((nm, v) :: rest) = Except.error (PyErr.typeError "dict object is not callable") :=
  rfl

/-- Witness for C2 at a concrete collection and a concrete named value. -/
theorem claim_c2_witness :
    DataObjectCollection.encode ⟨"c", none, []⟩ [("x", (0 : Nat))]
      = Except.error (PyErr.typeError "dict object is not callable") :=
  claim_c2_collection_encode_raises "x" 0 [] ⟨"c", none, []⟩

/-- Claim C5: the claim states that a leading 0xff makes
comprehensiontlv_parse_tag_raw return a no-tag-present result (None with the
untouched input) without raising.  The code refutes it: the illegal-value
check on 0x00/0x80/0xff precedes the sentinel branch, which is dead code, so
every input starting with 0xff raises ValueError. -/
theorem claim_c5_comprehension_ff_raises (rest : List Nat) :
    comprehensiontlv_parse_tag_raw (0xff :: rest)
      = Except.error (PyErr.valueError "Found illegal value") := rfl

/-- Witness for C5 at the lone and the doubled 0xff buffers. -/
theorem claim_c5_witness :
    comprehensiontlv_parse_tag_raw [0xff] = Except.error (PyErr.valueError "Found illegal value")
    ∧ comprehensiontlv_parse_tag_raw [0xff, 0xff]
      = Except.error (PyErr.valueError "Found illegal value") :=
  ⟨claim_c5_comprehension_ff_raises [], claim_c5_comprehension_ff_raises [0xff]⟩

/-- Claim C9: comprehensiontlv_parse_tag rejects the reserved leading bytes
0x00, 0x80 and 0xff with a malformed-tag ValueError, and decodes a leading
0x01 to the record with comprehension_required false and number 1,
consuming exactly one byte (the remainder is the untouched tail). -/
theorem claim_c9_reserved_tags (rest : List Nat) :
    comprehensiontlv_parse_tag (0x00 :: rest) = Except.error (PyErr.valueError "Found illegal value")
    ∧ comprehensiontlv_parse_tag (0x80 :: rest) = Except.error (PyErr.valueError "Found illegal value")
    ∧ comprehensiontlv_parse_tag (0xff :: rest) = Except.error (PyErr.valueError "Found illegal value")
    ∧ comprehensiontlv_parse_tag (0x01 :: rest) = Except.ok (⟨false, 1⟩, rest) :=
  ⟨rfl, rfl, rfl, rfl⟩

/-- Witness for C9 at the empty tail. -/
theorem claim_c9_witness :
    comprehensiontlv_parse_tag [0x00] = Except.error (PyErr.valueError "Found illegal value")
    ∧ comprehensiontlv_parse_tag [0x80] = Except.error (PyErr.valueError "Found illegal value")
    ∧ comprehensiontlv_parse_tag [0xff] = Except.error (PyErr.valueError "Found illegal value")
    ∧ comprehensiontlv_parse_tag [0x01] = Except.ok (⟨false, 1⟩, []) :=
  claim_c9_reserved_tags []

/-- Claim C10: constructing a DataObjectCollection without an explicit
members list raises TypeError, because the by-tag and by-name dict
comprehensions iterate the raw members argument (None) despite the
members-or-empty fallback assigned to the members field. -/
theorem claim_c10_init_none_raises :
    @DataObjectCollection.init Nat "collection" none none
      = Except.error (PyErr.typeError "NoneType object is not iterable") :=
  rfl

/-- Claim C3: the claim states from_tlv parses the length per the BER-TLV
definite-length codec (short and long form, as bertlv_parse_len does).  The
code refutes it: from_tlv reads the raw byte do[1] as the length.  On the
buffer 30 81 01 aa bb the code takes length 0x81 = 129, swallows 81 01 aa bb
wholesale into the value (clamped) and leaves no remainder, while
bertlv_parse_len reads the long form 81 01 as length 1, which would give
value aa and remainder bb. -/
theorem claim_c3_from_tlv_single_byte_len :
    idLeaf.from_tlv [0x30, 0x81, 0x01, 0xaa, 0xbb]
      = Except.ok (⟨"leaf", none, 0x30, some [0x01, 0xaa, 0xbb], idLeaf.from_bytes⟩, [])
    ∧ bertlv_parse_len [0x81, 0x01, 0xaa, 0xbb] = Except.ok (1, [0xaa, 0xbb]) :=
  ⟨rfl, rfl⟩

/-- Counterexample for C4: a from_tlv call on a leaf whose decoded field is
None returns the node with decoded now holding the parsed value, so the call
does not leave every field of the node unchanged. -/
theorem claim_c4_counterexample :
    (idLeaf.from_tlv [0x30, 0x01, 0xaa]).map (fun p => p.1.decoded) = Except.ok (some [0xaa])
    ∧ idLeaf.decoded = none :=
  ⟨rfl, rfl⟩

/-- Claim C4 (amended): grammar nodes are not stateless; a successful
from_tlv call stores the decoded value in the decoded field of the node
(the source docstring says the result is internalized in the object
instance, and DataObjectChoice.encode likewise assigns the member's decoded
field), leaving the other fields unchanged and returning the remainder. -/
theorem claim_c4_from_tlv_mutates (V : Type) (self : DataObject V) (t l : Nat)
    (rest : List Nat) (v : V) (h : t = self.tag)
    (hv : self.from_bytes (rest.take l) = Except.ok v) :
    self.from_tlv (t :: l :: rest)
      = Except.ok (⟨self.name, self.desc, self.tag, some v, self.from_bytes⟩, rest.drop l) := by
  simp [DataObject.from_tlv, h, hv]

/-- Witness for C4 at the identity-codec leaf. -/
theorem claim_c4_witness :
    0x30 = idLeaf.tag
    ∧ idLeaf.from_tlv [0x30, 1, 0xaa]
      = Except.ok (⟨idLeaf.name, idLeaf.desc, idLeaf.tag, some [0xaa], idLeaf.from_bytes⟩, []) :=
  ⟨rfl, claim_c4_from_tlv_mutates (List Nat) idLeaf 0x30 1 [0xaa] [0xaa] rfl rfl⟩

/-- Claim C7: for every grammar and every non-empty buffer whose first byte
is the 0xff sentinel, DataObjectCollection.decode returns the empty result
list and DataObjectChoice.decode returns no result, both handing back the
buffer untouched (and the node state unchanged), never an error. -/
theorem claim_c7_sentinel (V : Type) (c ch : DataObjectCollection V) (b : List Nat)
    (h : b.head? = some 0xff) :
    c.decode b = Except.ok ([], b, c)
    ∧ DataObjectChoice.decode ch b = Except.ok (none, b, ch) := by
  cases b with
  | nil => simp at h
  | cons x t =>
    have hx : x = 0xff := by simpa using h
    subst hx
    exact ⟨rfl, rfl⟩

/-- Witness for C7 at concrete empty grammars and the one-byte buffer ff. -/
theorem claim_c7_witness :
    ([0xff] : List Nat).head? = some 0xff
    ∧ DataObjectCollection.decode (⟨"c", none, []⟩ : DataObjectCollection Nat) [0xff]
        = Except.ok ([], [0xff], ⟨"c", none, []⟩)
    ∧ DataObjectChoice.decode (⟨"ch", none, []⟩ : DataObjectCollection Nat) [0xff]
        = Except.ok (none, [0xff], ⟨"ch", none, []⟩) :=
  ⟨rfl, claim_c7_sentinel Nat ⟨"c", none, []⟩ ⟨"ch", none, []⟩ [0xff] rfl⟩

/-- Counterexample for C8: on the truncated long-form buffer 82 01 the
parser returns the ordinary pair (0, empty) - the very result a well-formed
zero length produces (byte 00) - instead of a hard error or a result
distinguishable from a normal (length, remainder) pair. -/
theorem claim_c8_counterexample :
    bertlv_parse_len [0x82, 0x01] = Except.ok (0, [])
    ∧ bertlv_parse_len [0x00] = Except.ok (0, []) :=
  ⟨rfl, rfl⟩

/-- Claim C8 (amended): on a long-form first byte whose declared
length-octet count exceeds the remaining bytes, bertlv_parse_len never
reads past the buffer end, but signals the condition in-band by returning
the normal pair (0, empty) rather than an error or a distinguishable
insufficient-data result. -/
theorem claim_c8_truncated_longform (b : Nat) (rest : List Nat) (h1 : ¬ b < 0x80)
    (h2 : rest.length < b &&& 0x7f) :
    bertlv_parse_len (b :: rest) = Except.ok (0, []) := by
  have hc : (b :: rest).length < (b &&& 0x7f) + 1 := by
    simp only [List.length_cons]
    omega
  simp only [bertlv_parse_len, if_neg h1, if_pos hc]

/-- Witness for C8 at the buffer 82 01. -/
theorem claim_c8_witness :
    ¬ (0x82 : Nat) < 0x80
    ∧ ([0x01] : List Nat).length < 0x82 &&& 0x7f
    ∧ bertlv_parse_len [0x82, 0x01] = Except.ok (0, []) :=
  ⟨by decide, by decide, claim_c8_truncated_longform 0x82 [0x01] (by decide) (by decide)⟩

/-- Appending r below a left shift by k adds it, when r fits in k bits. -/
theorem shiftLeft_lor_eq_add {k : Nat} :
    ∀ {r : Nat} (a : Nat), r < 2 ^ k → (a <<< k) ||| r = a * 2 ^ k + r := by
  induction k with
  | zero =>
    intro r a h
    have hr : r = 0 := Nat.lt_one_iff.mp h
    subst hr
    simp [Nat.shiftLeft_zero]
  | succ k ih =>
    intro r a h
    have hr : r = Nat.bit r.bodd r.div2 := (Nat.bit_decomp r).symm
    have hsh : a <<< (k + 1) = Nat.bit false (a <<< k) := by
      rw [Nat.shiftLeft_succ, Nat.bit_val, Nat.shiftLeft_eq]
      simp
    have hdiv : r.div2 < 2 ^ k := by
      rw [hr] at h
      exact Nat.bit_lt_two_pow_succ_iff.mp h
    rw [hr, hsh, Nat.lor_bit, ih a hdiv, Nat.bit_val, Nat.bit_val]
    have hb : (false || r.bodd) = r.bodd := by simp
    rw [hb, Nat.pow_succ]
    ring

/-- to_bytes(k, big) always yields exactly k bytes. -/
theorem to_bytes_be_length (k : Nat) : ∀ n : Nat, (to_bytes_be k n).length = k := by
  induction k with
  | zero => intro n; rfl
  | succ k ih => intro n; simp [to_bytes_be, ih]

/-- The big-endian accumulation loop inverts to_bytes(k, big) for any
starting accumulator, when the value fits in k bytes. -/
theorem foldl_to_bytes_be (k : Nat) :
    ∀ (n acc : Nat), n < 2 ^ (8 * k) →
      List.foldl (fun a b => (a <<< 8) ||| b) acc (to_bytes_be k n)
        = acc * 2 ^ (8 * k) + n := by
  induction k with
  | zero =>
    intro n acc h
    have hn : n = 0 := by simpa using h
    subst hn
    simp [to_bytes_be]
  | succ k ih =>
    intro n acc h
    have hpow : 2 ^ (8 * (k + 1)) = 2 ^ (8 * k) * 256 := by
      rw [Nat.mul_succ, pow_add]
      norm_num
    have hdiv : n / 256 < 2 ^ (8 * k) := by
      rw [Nat.div_lt_iff_lt_mul (by norm_num : (0 : Nat) < 256)]
      calc n < 2 ^ (8 * (k + 1)) := h
        _ = 2 ^ (8 * k) * 256 := hpow
    have hmod : n % 256 < 2 ^ 8 := by omega
    rw [to_bytes_be, List.foldl_append, ih (n / 256) acc hdiv]
    simp only [List.foldl_cons, List.foldl_nil]
    rw [shiftLeft_lor_eq_add (acc * 2 ^ (8 * k) + n / 256) hmod, hpow]
    calc (acc * 2 ^ (8 * k) + n / 256) * 2 ^ 8 + n % 256
        = acc * (2 ^ (8 * k) * 256) + (256 * (n / 256) + n % 256) := by ring
      _ = acc * (2 ^ (8 * k) * 256) + n := by rw [Nat.div_add_mod]

/-- Parsing a long-form length of k length octets encoding n recovers n and
consumes the whole field. -/
theorem bertlv_parse_len_longform (k n : Nat) (hmask : (0x80 + k) &&& 0x7f = k)
    (hn : n < 2 ^ (8 * k)) :
    bertlv_parse_len ((0x80 + k) :: to_bytes_be k n) = Except.ok (n, []) := by
  have h1 : ¬ (0x80 + k) < 0x80 := by omega
  have hlen : (to_bytes_be k n).length = k := to_bytes_be_length k n
  simp only [bertlv_parse_len, hmask, if_neg h1]
  have hc : ¬ ((0x80 + k) :: to_bytes_be k n).length < k + 1 := by
    simp [hlen]
  rw [if_neg hc]
  have ht : (to_bytes_be k n).take k = to_bytes_be k n :=
    List.take_of_length_le (by omega)
  have hd : (to_bytes_be k n).drop k = [] :=
    List.drop_eq_nil_of_le (by omega)
  rw [ht, hd]
  unfold from_bytes_be
  rw [foldl_to_bytes_be k n 0 hn]
  simp

/-- Claim C6: BER length round-trip.  For every n up to 0xffffffff,
parsing the encoding of n returns n with an empty remainder (covering the
short form and every long form the encoder picks), and for every larger n
the encoder fails with the unsupported-length ValueError instead of
truncating. -/
theorem claim_c6_len_roundtrip (n : Nat) :
    (n ≤ 0xffffffff →
      (bertlv_encode_len n >>= bertlv_parse_len) = Except.ok (n, ([] : List Nat)))
    ∧ (0xffffffff < n →
      bertlv_encode_len n = Except.error (PyErr.valueError "Length > 32bits not supported")) := by
  constructor
  · intro hn
    by_cases h1 : n < 0x80
    · have hb : to_bytes_be 1 n = [n] := by
        simp [to_bytes_be, Nat.mod_eq_of_lt (by omega : n < 256)]
      simp only [bertlv_encode_len, if_pos h1, hb]
      show bertlv_parse_len [n] = Except.ok (n, [])
      simp [bertlv_parse_len, if_pos h1]
    · by_cases h2 : n ≤ 0xff
      · simp only [bertlv_encode_len, if_neg h1, if_pos h2]
        show bertlv_parse_len ((0x80 + 1) :: to_bytes_be 1 n) = Except.ok (n, [])
        exact bertlv_parse_len_longform 1 n (by decide) (by norm_num; omega)
      · by_cases h3 : n ≤ 0xffff
        · simp only [bertlv_encode_len, if_neg h1, if_neg h2, if_pos h3]
          show bertlv_parse_len ((0x80 + 2) :: to_bytes_be 2 n) = Except.ok (n, [])
          exact bertlv_parse_len_longform 2 n (by decide) (by norm_num; omega)
        · by_cases h4 : n ≤ 0xffffff
          · simp only [bertlv_encode_len, if_neg h1, if_neg h2, if_neg h3, if_pos h4]
            show bertlv_parse_len ((0x80 + 3) :: to_bytes_be 3 n) = Except.ok (n, [])
            exact bertlv_parse_len_longform 3 n (by decide) (by norm_num; omega)
          · simp only [bertlv_encode_len, if_neg h1, if_neg h2, if_neg h3, if_neg h4,
              if_pos hn]
            show bertlv_parse_len ((0x80 + 4) :: to_bytes_be 4 n) = Except.ok (n, [])
            exact bertlv_parse_len_longform 4 n (by decide) (by norm_num; omega)
  · intro hn
    simp only [bertlv_encode_len]
    rw [if_neg (by omega), if_neg (by omega), if_neg (by omega), if_neg (by omega),
      if_neg (by omega)]

/-- Witness for C6 at n = 0x90 (long form with one length octet) and at the
first unsupported value 0x100000000. -/
theorem claim_c6_witness :
    (bertlv_encode_len 0x90 >>= bertlv_parse_len) = Except.ok (0x90, ([] : List Nat))
    ∧ bertlv_encode_len 0x100000000
      = Except.error (PyErr.valueError "Length > 32bits not supported") :=
  ⟨(claim_c6_len_roundtrip 0x90).1 (by decide),
   (claim_c6_len_roundtrip 0x100000000).2 (by decide)⟩
